import Mathlib

/-!
Verification of the Windows event-loop backend (`llarp/ev/ev_win32.hpp`)
of the loki-network repository: the IOCP-based TUN completion loop, the
write pacing queue, the TCP/UDP endpoints and the readiness-polling
event loop.  Each C++ routine relevant to a claim is shallowly embedded
as an executable Lean function; theorems settle the claims of the
specification against these embeddings.
-/

/-! ### The TUN completion loop (`tun_ev_loop`)

A worker thread repeatedly calls `GetQueuedCompletionStatus` with a
100 ms timeout.  Each dequeue yields one of: a timeout (`alert` false),
the shutdown sentinel (completion key all-ones), a read completion, or
a write completion.  `TunDequeue` enumerates these outcomes; the field
of `readCompletion` records whether the endpoint has a `recvpkt`
callback installed (the loop body tests `ev->t->recvpkt`). -/

inductive TunDequeue : Type where
  | timeout : TunDequeue
  | sentinel : TunDequeue
  | readCompletion (hasRecv : Bool) : TunDequeue
  | writeCompletion : TunDequeue
deriving DecidableEq, Repr

/-- Actions the loop body of `tun_ev_loop` performs on one dequeued
notification, in program order: dispatch the endpoint's `recvpkt`
continuation, drain the write queue (`ev->flush_write()`), issue a new
standing read (`ev->read(...)`), release the in-flight request record
(`delete pkt`), or exit the worker thread. -/
inductive TunAction : Type where
  | dispatchRecv : TunAction
  | drainQueue : TunAction
  | issueRead : TunAction
  | releasePkt : TunAction
  | exitThread : TunAction
deriving DecidableEq, Repr

/-- One iteration of the `while(true)` body of `tun_ev_loop`
(ev_win32.hpp lines 269-296), as the list of actions it performs on the
dequeued notification: a timeout (`!alert`) continues the loop; the
all-ones completion key breaks out of the loop; a read completion
dispatches `recvpkt` (if installed), calls `flush_write`, re-issues the
standing read, then deletes the packet; a write completion re-issues
the standing read then deletes the packet. -/
def tun_ev_loop_body : TunDequeue → List TunAction
  | .timeout => []
  | .sentinel => [.exitThread]
  | .readCompletion hasRecv =>
      (if hasRecv then [TunAction.dispatchRecv] else [])
        ++ [.drainQueue, .issueRead, .releasePkt]
  | .writeCompletion => [.issueRead, .releasePkt]

/-- Whether a dequeued notification is a genuine completion (neither a
timeout nor the shutdown sentinel). -/
def TunDequeue.isCompletion : TunDequeue → Bool
  | .readCompletion _ => true
  | .writeCompletion => true
  | _ => false

/-! ### Read chaining per endpoint

`win32_tun_io::add_ev` issues exactly one standing read
(`read(readbuf, 4096)` at line 207).  Afterwards the completions
dequeued for this endpoint drive further reads: a read completion
issues one new read, and a write completion also issues one new read,
unconditionally.  The functions below count reads issued and read
completions observed along a trace of dequeued notifications. -/

/-- Number of new standing reads the loop body issues for one dequeued
notification (`ev->read(...)` calls in ev_win32.hpp lines 287 and 293). -/
def readsIssuedByEvent : TunDequeue → Nat
  | .readCompletion _ => 1
  | .writeCompletion => 1
  | _ => 0

/-- Number of read completions observed in one dequeued notification. -/
def readsObservedByEvent : TunDequeue → Nat
  | .readCompletion _ => 1
  | _ => 0

/-- Number of write-queue drains (`ev->flush_write()`) the loop body
triggers for one dequeued notification. -/
def drainsByEvent : TunDequeue → Nat
  | .readCompletion _ => 1
  | _ => 0

/-- Total reads issued for one endpoint after its registration: the one
standing read issued by `add_ev` plus one per dequeued completion that
re-issues (read completions and write completions both do). -/
def readsIssued (tr : List TunDequeue) : Nat :=
  1 + (tr.map readsIssuedByEvent).sum

/-- Total read completions observed for one endpoint along a trace. -/
def readsObserved (tr : List TunDequeue) : Nat :=
  (tr.map readsObservedByEvent).sum

/-- Total write-queue drains triggered along a trace. -/
def drainsTriggered (tr : List TunDequeue) : Nat :=
  (tr.map drainsByEvent).sum

/-- Reads currently outstanding on one endpoint after a trace of
dequeued completions: issued minus observed. -/
def outstandingReads (tr : List TunDequeue) : Nat :=
  readsIssued tr - readsObserved tr

/-- Count of events satisfying a Boolean test along a trace. -/
def countEvents (p : TunDequeue → Bool) (tr : List TunDequeue) : Nat :=
  (tr.filter p).length

/-- Number of write completions dequeued along a trace. -/
def countWriteCompletions (tr : List TunDequeue) : Nat :=
  countEvents (fun d => d == TunDequeue.writeCompletion) tr

/-! ### Lazy creation of the completion channel (`win32_tun_io::add_ev`)

The globals `tun_event_queue` (initially `INVALID_HANDLE_VALUE`) and
`kThreadPool` are shared by all TUN endpoints.  The first registration
reads the logical CPU count, creates the completion port with
concurrency `numCPU * 2` and calls `begin_tun_loop(numCPU * 2)`, which
spawns exactly that many worker threads; any later registration only
associates its descriptor with the existing port (third argument of
`CreateIoCompletionPort` with an existing handle) and spawns nothing. -/

structure TunGlobalState : Type where
  /-- whether `tun_event_queue` holds a created completion port
  (i.e. is no longer `INVALID_HANDLE_VALUE`) -/
  queueCreated : Bool
  /-- number of worker threads spawned by `begin_tun_loop` into
  `kThreadPool` -/
  workers : Nat
  /-- number of endpoints pushed onto `tun_listeners` -/
  listeners : Nat
  /-- standing reads issued by registrations (`read(readbuf, 4096)`) -/
  standingReads : Nat
deriving DecidableEq, Repr

/-- The global state before any TUN endpoint registers. -/
def tunGlobalInit : TunGlobalState :=
  { queueCreated := false, workers := 0, listeners := 0, standingReads := 0 }

namespace win32_tun_io

/-- `win32_tun_io::add_ev` (ev_win32.hpp lines 186-209) acting on the
shared global state, parameterised by the logical CPU count read from
`GetSystemInfo`: if the event queue does not exist yet, create it and
start `numCPU * 2` worker threads via `begin_tun_loop`; otherwise only
associate the descriptor with the existing queue.  Either way, push the
endpoint onto `tun_listeners` and issue one standing read. -/
def add_ev (numCPU : Nat) (g : TunGlobalState) : TunGlobalState :=
  if g.queueCreated = false then
    { queueCreated := true, workers := numCPU * 2,
      listeners := g.listeners + 1, standingReads := g.standingReads + 1 }
  else
    { g with listeners := g.listeners + 1,
             standingReads := g.standingReads + 1 }

end win32_tun_io

/-- Global state after `n` TUN endpoints have registered in sequence. -/
def tunGlobalAfter (numCPU n : Nat) : TunGlobalState :=
  Nat.rec tunGlobalInit (fun _ g => win32_tun_io.add_ev numCPU g) n

/-! ### Shutdown (`exit_tun_loop`)

`exit_tun_loop` (ev_win32.hpp lines 301-326) performs, in program
order: one single `PostQueuedCompletionStatus(tun_event_queue, 0, ~0,
nullptr)` call, a join of the worker-thread pool
(`WaitForMultipleObjects(..., TRUE, INFINITE)`), the release of every
endpoint on `tun_listeners` (`delete(*itr)`), and finally
`CloseHandle(tun_event_queue)`. -/

inductive ShutdownAction : Type where
  | postSentinel : ShutdownAction
  | joinAllWorkers : ShutdownAction
  | releaseEndpoint (i : Nat) : ShutdownAction
  | closeChannel : ShutdownAction
deriving DecidableEq, Repr

/-- The sequence of actions `exit_tun_loop` performs when `k` endpoints
are on `tun_listeners`, straight from the source: post the all-ones
sentinel once, wait for the thread pool, delete each listener, close
the completion-port handle. -/
def exit_tun_loop (k : Nat) : List ShutdownAction :=
  [.postSentinel, .joinAllWorkers]
    ++ (List.range k).map ShutdownAction.releaseEndpoint
    ++ [.closeChannel]

/-- A posted completion packet is removed from the completion port by
the single `GetQueuedCompletionStatus` call that dequeues it, so the
number of workers that can ever observe a sentinel is bounded by the
number of sentinels posted: with `m` workers and `p` posted sentinels,
at most `min m p` workers observe shutdown and exit. -/
def workersObservingShutdown (m p : Nat) : Nat := min m p

/-! ### The write pacing queue (`win32_tun_io::WriteBuffer` and the
Controlled-Delay queue)

`WriteBuffer` is the pacing-queue entry: a timestamp, a byte count and
a fixed-size buffer of `EV_WRITE_BUF_SZ` bytes.  Its constructor copies
the payload when it fits and otherwise sets `bufsz = 0`, leaving the
buffer bytes unwritten (modelled as the empty list).  The queue itself,
`llarp::util::CoDelQueue` with parameters target 5 ms, interval 100 ms,
capacity 128, is declared in a header outside this backend; it is
modelled from the spec below. -/

/-- Modelled from the spec: the fixed maximum entry size
`EV_WRITE_BUF_SZ`, a constant defined in the shared event-loop header
that is not part of this backend file.  The spec fixes only that it is
a fixed entry size; the concrete value 2048 stands for it. -/
def EV_WRITE_BUF_SZ : Nat := 2048

/-- CoDel target delay in milliseconds (template argument 5 of
`LossyWriteQueue_t`). -/
def codelTargetMs : Nat := 5

/-- CoDel measurement interval in milliseconds (template argument 100
of `LossyWriteQueue_t`). -/
def codelIntervalMs : Nat := 100

/-- Pacing-queue capacity in entries (template argument 128 of
`LossyWriteQueue_t`). -/
def codelCapacity : Nat := 128

structure WriteBuffer : Type where
  /-- enqueue time, written by `PutTime` at emplacement -/
  timestamp : Nat
  /-- number of valid bytes in `buf` -/
  bufsz : Nat
  /-- the copied payload bytes (empty when nothing was copied) -/
  payload : List Nat
deriving DecidableEq, Repr

/-- The `WriteBuffer(const byte_t* ptr, size_t sz)` constructor
(ev_win32.hpp lines 70-79): when the payload fits in the fixed buffer
it records its size and copies it; otherwise it sets `bufsz = 0` and
copies nothing.  The timestamp is written later by `PutTime`. -/
def mkWriteBuffer (ptr : List Nat) : WriteBuffer :=
  if ptr.length ≤ EV_WRITE_BUF_SZ then
    { timestamp := 0, bufsz := ptr.length, payload := ptr }
  else
    { timestamp := 0, bufsz := 0, payload := [] }

/-- Controlled-Delay decision state, modelled from the spec: a rolling
record of when the sojourn time was first observed above target, the
dropping flag, the next allowed drop time and the running drop count
used for the geometric backoff. -/
structure CodelState : Type where
  dropping : Bool
  aboveSince : Option Nat
  nextDrop : Nat
  dropCount : Nat
deriving DecidableEq, Repr

/-- Controlled-Delay state before any entry has been processed. -/
def codelInit : CodelState :=
  { dropping := false, aboveSince := none, nextDrop := 0, dropCount := 0 }

/-- Modelled from the spec: the Controlled-Delay decision applied to
one entry with enqueue time `ts` at time `now` (the `CoDelQueue`
implementation lives in a utility header outside this backend).  A
sojourn time under the target leaves the dropping state and emits the
entry; a sojourn at or above target for longer than one full interval
enters the dropping state and drops, with subsequent drops at
geometrically shrinking intervals; otherwise the entry is emitted.
Returns the new state and whether the entry is handed to the sink. -/
def codelDecide (now : Nat) (st : CodelState) (ts : Nat) :
    CodelState × Bool :=
  let sojourn := now - ts
  if sojourn < codelTargetMs then
    ({ st with dropping := false, aboveSince := none }, true)
  else
    match st.aboveSince with
    | none => ({ st with aboveSince := some now }, true)
    | some t0 =>
      if st.dropping then
        if st.nextDrop ≤ now then
          ({ st with dropCount := st.dropCount + 1,
                     nextDrop := now + codelIntervalMs / Nat.sqrt (st.dropCount + 1) },
           false)
        else (st, true)
      else if codelIntervalMs < now - t0 then
        ({ st with dropping := true, dropCount := 1,
                   nextDrop := now + codelIntervalMs }, false)
      else (st, true)

/-- Modelled from the spec: `CoDelQueue::Emplace` constructs the entry
in place, stamps it with the current time via `PutTime`, and drops it
silently when the queue is at capacity. -/
def codelEmplace (now : Nat) (q : List WriteBuffer) (ptr : List Nat) :
    List WriteBuffer :=
  if q.length < codelCapacity then
    q ++ [{ mkWriteBuffer ptr with timestamp := now }]
  else q

/-- Modelled from the spec: `CoDelQueue::Process` walks the queued
entries oldest-first, applies the Controlled-Delay decision to each and
hands the survivors to the sink; in `win32_tun_io::flush_write` the
sink is `do_write(buffer.buf, buffer.bufsz)`, so the emitted value is
the entry's byte count.  Returns the final decision state and the list
of emitted OS-write sizes. -/
def codelProcess (now : Nat) :
    CodelState → List WriteBuffer → CodelState × List Nat
  | st, [] => (st, [])
  | st, e :: rest =>
    let d := codelDecide now st e.timestamp
    let r := codelProcess now d.1 rest
    if d.2 then (r.1, e.bufsz :: r.2) else r

/-- Per-endpoint pacing state: whether `m_LossyWriteQueue` was
allocated (the constructor always allocates it), the Controlled-Delay
decision state and the queue contents. -/
structure TunWriteState : Type where
  hasQueue : Bool
  codel : CodelState
  queue : List WriteBuffer
deriving DecidableEq, Repr

/-- Result of one `queue_write` call: the returned Boolean, how many
entries the emplacement added, the OS-write sizes emitted by the
immediate drain, and the state afterwards. -/
structure QueueWriteResult : Type where
  ok : Bool
  enqueuedDelta : Nat
  writesEmitted : List Nat
  stAfter : TunWriteState
deriving DecidableEq, Repr

namespace win32_tun_io

/-- `win32_tun_io::flush_write` (ev_win32.hpp lines 226-236): drain the
pacing queue through `Process`, handing each surviving entry to
`do_write`.  (The `before_write` callback hook fires first; it does not
change the queue.) -/
def flush_write (now : Nat) (st : TunWriteState) :
    TunWriteState × List Nat :=
  let r := codelProcess now st.codel st.queue
  ({ st with codel := r.1, queue := [] }, r.2)

/-- `win32_tun_io::queue_write` (ev_win32.hpp lines 143-154): if the
pacing queue exists, emplace the payload, immediately call
`flush_write`, and return true; otherwise return false. -/
def queue_write (now : Nat) (st : TunWriteState) (ptr : List Nat) :
    QueueWriteResult :=
  if st.hasQueue then
    let q2 := codelEmplace now st.queue ptr
    let st2 : TunWriteState := { st with queue := q2 }
    let r := flush_write now st2
    { ok := true, enqueuedDelta := q2.length - st.queue.length,
      writesEmitted := r.2, stAfter := r.1 }
  else
    { ok := false, enqueuedDelta := 0, writesEmitted := [], stAfter := st }

end win32_tun_io

/-- A fresh pacing state as built by the `win32_tun_io` constructor:
the lossy write queue is allocated and empty. -/
def tunWriteInit : TunWriteState :=
  { hasQueue := true, codel := codelInit, queue := [] }

/-! ### Interface bring-up (`win32_tun_io::setup`)

`setup` (ev_win32.hpp lines 156-183) runs `tuntap_start`,
`tuntap_set_ip`, `tuntap_up` in that order, returning false at the
first failing step, then returns false if the device descriptor is
invalid, and true otherwise.  The outcomes of the three driver calls
and the descriptor validity are the environment; the embedding records
which steps were attempted. -/

structure TunSetupEnv : Type where
  /-- `tuntap_start(tunif, TUNTAP_MODE_TUNNEL, 0) != -1` -/
  startOk : Bool
  /-- `tuntap_set_ip(tunif, ifaddr, ifaddr, netmask) != -1` -/
  setIpOk : Bool
  /-- `tuntap_up(tunif) != -1` -/
  upOk : Bool
  /-- `tunif->tun_fd != INVALID_HANDLE_VALUE` after the steps -/
  fdValid : Bool
deriving DecidableEq, Repr

/-- Configuration steps a setup routine could perform; `rollback`
stands for any undo of an already-performed step (never emitted by
this code). -/
inductive SetupStep : Type where
  | start : SetupStep
  | setIp : SetupStep
  | up : SetupStep
  | rollback : SetupStep
deriving DecidableEq, Repr

namespace win32_tun_io

/-- `win32_tun_io::setup` (ev_win32.hpp lines 156-183): start the
device, assign the address/netmask, bring the device up, in this fixed
order; return false immediately at the first failure, skipping the
rest and undoing nothing; finally fail if the device descriptor is
invalid.  Returns the result and the list of steps attempted, in
order. -/
def setup (e : TunSetupEnv) : Bool × List SetupStep :=
  if e.startOk = false then (false, [.start])
  else if e.setIpOk = false then (false, [.start, .setIp])
  else if e.upOk = false then (false, [.start, .setIp, .up])
  else if e.fdValid = false then (false, [.start, .setIp, .up])
  else (true, [.start, .setIp, .up])

end win32_tun_io

/-! ### TCP connections (`llarp::tcp_conn`)

`tcp_conn::connect` (ev_win32.hpp lines 367-398) makes exactly one
non-blocking `::connect` call and inspects its result: success invokes
`connected()` now; `WSAEINPROGRESS` returns with no callback; any
other failure invokes the caller's error callback when one is
installed.  The OS outcome is the environment. -/

inductive OsConnectOutcome : Type where
  /-- `::connect` returned 0 -/
  | ok : OsConnectOutcome
  /-- `::connect` failed with `WSAGetLastError() == WSAEINPROGRESS` -/
  | inProgress : OsConnectOutcome
  /-- `::connect` failed with any other error code -/
  | errCode (c : Nat) : OsConnectOutcome
deriving DecidableEq, Repr

/-- Upward callback invocations observable by the caller. -/
inductive CbEvent : Type where
  /-- the connected notification (`connected()`) -/
  | connectedCb : CbEvent
  /-- the caller's error callback (`_conn->error(_conn)`) -/
  | errorCb : CbEvent
  /-- the generic writer `ev_io::flush_write()` -/
  | genericFlush : CbEvent
deriving DecidableEq, Repr

namespace tcp_conn

/-- `llarp::tcp_conn::connect` (ev_win32.hpp lines 367-398): issue one
OS `connect`, then either fire the connected notification now (result
0), return silently (`WSAEINPROGRESS`), or fire the caller's error
callback if installed.  Returns the callback invocations and the
number of OS connect attempts made (always one; there is no retry). -/
def connect (res : OsConnectOutcome) (hasErrorCb : Bool) :
    List CbEvent × Nat :=
  match res with
  | .ok => ([.connectedCb], 1)
  | .inProgress => ([], 1)
  | .errCode _ => (if hasErrorCb then [CbEvent.errorCb] else [], 1)

/-- `llarp::tcp_conn::flush_write` (ev_win32.hpp lines 352-357): call
`connected()` then forward to the generic `ev_io::flush_write`.  The
`connected()` helper lives in the shared event-loop header; modelled
from the spec, it fires the connected notification exactly once, on
the first flush after a pending connect, tracked by the
`alreadyNotified` flag. -/
def flush_write (alreadyNotified : Bool) : List CbEvent :=
  (if alreadyNotified then [] else [CbEvent.connectedCb])
    ++ [CbEvent.genericFlush]

end tcp_conn

/-! ### The readiness-polling loop (`llarp_win32_loop`) and its
registry

`llarp_win32_loop::add_ev` (ev_win32.hpp lines 728-743) registers an
endpoint with the `upoll` multiplexer and appends it to the loop's
`handlers` registry, deleting the endpoint and returning false when
`upoll_ctl` fails.  `tcp_connect` (lines 502-513) creates the socket,
constructs a `tcp_conn`, registers it via `add_ev` (ignoring the
result) and then calls `connect()`.  Nothing removes a connection from
`handlers` when its connect fails; only `udp_close` erases entries. -/

inductive EndpointKind : Type where
  | tunEndpoint : EndpointKind
  | tcpConnEndpoint : EndpointKind
  | tcpServEndpoint : EndpointKind
  | udpEndpoint : EndpointKind
deriving DecidableEq, Repr

/-- The loop's `handlers` registry, as the list of registered endpoint
kinds in insertion order. -/
structure WinLoopState : Type where
  handlers : List EndpointKind
deriving DecidableEq, Repr

/-- An empty registry, as after `llarp_win32_loop` construction. -/
def winLoopInit : WinLoopState := { handlers := [] }

namespace llarp_win32_loop

/-- `llarp_win32_loop::add_ev` (ev_win32.hpp lines 728-743): register
the descriptor with `upoll`; on `upoll_ctl` failure delete the
endpoint and return false, otherwise append it to `handlers` and
return true.  `ctlOk` is the outcome of the `upoll_ctl` call. -/
def add_ev (st : WinLoopState) (k : EndpointKind) (ctlOk : Bool) :
    WinLoopState × Bool :=
  if ctlOk then ({ handlers := st.handlers ++ [k] }, true)
  else (st, false)

/-- `llarp_win32_loop::tcp_connect` (ev_win32.hpp lines 502-513):
create the socket (fail fast when that fails), construct a `tcp_conn`,
register it via `add_ev` — whose result the code ignores — then call
`tcp_conn::connect`.  Returns the registry afterwards, the callback
invocations, and the Boolean result (true whenever the socket was
created). -/
def tcp_connect (st : WinLoopState) (socketOk : Bool) (ctlOk : Bool)
    (res : OsConnectOutcome) (hasErrorCb : Bool) :
    WinLoopState × List CbEvent × Bool :=
  if socketOk = false then (st, [], false)
  else
    let r := add_ev st .tcpConnEndpoint ctlOk
    let c := tcp_conn.connect res hasErrorCb
    (r.1, c.1, true)

/-- `llarp_win32_loop::create_tun` (ev_win32.hpp lines 709-715):
returns `nullptr` for every input — the readiness backend supports no
virtual-interface endpoints. -/
def create_tun (_cfg : Nat) : Option EndpointKind := none

end llarp_win32_loop

/-! ### UDP sockets (`llarp::udp_listener::sendto`)

`sendto` (ev_win32.hpp lines 464-489) switches on the destination
address family: `AF_INET` and `AF_INET6` select the matching
socket-length and issue the OS `::sendto`, whose result is returned;
any other family returns -1 before any OS call.  The numeric constants
come from the platform headers. -/

/-- Address family `AF_INET` (platform constant). -/
def AF_INET : Nat := 2

/-- Address family `AF_INET6` (platform constant, Windows value). -/
def AF_INET6 : Nat := 23

/-- Byte size of `struct sockaddr_in` (platform constant). -/
def sizeof_sockaddr_in : Nat := 16

/-- Byte size of `struct sockaddr_in6` (platform constant). -/
def sizeof_sockaddr_in6 : Nat := 28

namespace udp_listener

/-- `llarp::udp_listener::sendto` (ev_win32.hpp lines 464-489): select
the socket-length by the destination family, returning -1 immediately
(with no OS send) for any family other than IPv4/IPv6; otherwise issue
the OS `::sendto` and return its result.  `osResult` is the value the
OS send would return; the second component is the socket-length of the
OS send made, or `none` when no OS call is attempted. -/
def sendto (family : Nat) (osResult : Int) : Int × Option Nat :=
  if family = AF_INET then (osResult, some sizeof_sockaddr_in)
  else if family = AF_INET6 then (osResult, some sizeof_sockaddr_in6)
  else (-1, none)

end udp_listener

/-! ### Factory reachability on the readiness backend

The factories of `llarp_win32_loop` construct only `tcp_conn`,
`tcp_serv` and `udp_listener` endpoints; `create_tun` returns null.
`FactoryCall` enumerates one factory invocation with the OS outcomes
it depends on, and `applyFactory` records what each appends to the
`handlers` registry (`tcp_connect` and `udp_listen` register through
`add_ev`; `bind_tcp` constructs a `tcp_serv`, registered by its caller
through the same `add_ev` path; `create_tun` registers nothing). -/

inductive FactoryCall : Type where
  | callTcpConnect (socketOk ctlOk : Bool) : FactoryCall
  | callBindTcp (ok ctlOk : Bool) : FactoryCall
  | callUdpListen (ok ctlOk : Bool) : FactoryCall
  | callCreateTun : FactoryCall
deriving DecidableEq, Repr

/-- Effect of one factory call of `llarp_win32_loop` on the `handlers`
registry: each successful TCP/UDP factory appends its endpoint kind
via `llarp_win32_loop::add_ev`; `create_tun` returns null and never
registers anything. -/
def applyFactory (st : WinLoopState) : FactoryCall → WinLoopState
  | .callTcpConnect socketOk ctlOk =>
      if socketOk then (llarp_win32_loop.add_ev st .tcpConnEndpoint ctlOk).1
      else st
  | .callBindTcp ok ctlOk =>
      if ok then (llarp_win32_loop.add_ev st .tcpServEndpoint ctlOk).1
      else st
  | .callUdpListen ok ctlOk =>
      if ok then (llarp_win32_loop.add_ev st .udpEndpoint ctlOk).1
      else st
  | .callCreateTun => st

/-- Registry contents after a sequence of factory calls starting from
the empty registry. -/
def registryAfter (calls : List FactoryCall) : WinLoopState :=
  calls.foldl applyFactory winLoopInit

/-! ## Claim theorems -/

/-- An oversized payload still constructs an entry, with `bufsz = 0`
and nothing copied (the `else` branch of the `WriteBuffer`
constructor). -/
theorem mkWriteBuffer_oversize (ptr : List Nat)
    (h : EV_WRITE_BUF_SZ < ptr.length) :
    mkWriteBuffer ptr = { timestamp := 0, bufsz := 0, payload := [] } := by
  have h2 : ¬ ptr.length ≤ EV_WRITE_BUF_SZ := Nat.not_le.mpr h
  simp [mkWriteBuffer, h2]

/-- C1: the specification's shutdown protocol requires one sentinel per
worker so that all M workers observe shutdown before any endpoint is
released.  The code posts the all-ones sentinel exactly once, and a
posted completion packet is consumed by the single dequeue that
observes it, so with 2 workers at most one can ever observe shutdown:
the join of all workers that precedes endpoint release can never
complete.  Evaluated at the failing input M = 2 workers, K = 1
endpoint. -/
theorem exit_tun_loop_sentinel_deficit :
    (exit_tun_loop 1).count ShutdownAction.postSentinel = 1 ∧
    workersObservingShutdown 2
      ((exit_tun_loop 1).count ShutdownAction.postSentinel) = 1 ∧
    workersObservingShutdown 2
      ((exit_tun_loop 1).count ShutdownAction.postSentinel) < 2 := by
  decide

/-- C2: for every completion notification dequeued by a worker in
`tun_ev_loop` (neither a timeout nor the shutdown sentinel), the
in-flight request record recovered from the notification is released
exactly once within the dequeuing iteration — hence by the thread that
observed the completion, since `GetQueuedCompletionStatus` removes the
packet so no other thread sees it — and the release is the last action
of the iteration, after the read or write continuation has been
dispatched. -/
theorem tun_ev_loop_single_release (d : TunDequeue)
    (h : d.isCompletion = true) :
    (tun_ev_loop_body d).count TunAction.releasePkt = 1 ∧
    (tun_ev_loop_body d).getLast? = some TunAction.releasePkt := by
  cases d with
  | timeout => cases h
  | sentinel => cases h
  | readCompletion hasRecv => cases hasRecv <;> decide
  | writeCompletion => decide

/-- Witness for C2 at a concrete completion: a read completion with a
`recvpkt` callback installed. -/
theorem tun_ev_loop_single_release_witness :
    (tun_ev_loop_body (.readCompletion true)).count TunAction.releasePkt = 1 ∧
    (tun_ev_loop_body (.readCompletion true)).getLast?
      = some TunAction.releasePkt :=
  tun_ev_loop_single_release (.readCompletion true) rfl

/-- C3 counterexample: immediately after registration one standing
read is outstanding and none of its completions has been observed, yet
a single dequeued write completion makes the loop issue a second read
(ev_win32.hpp line 293 runs unconditionally), so two reads are
outstanding although zero read completions were observed — refuting
both "re-issues the standing read only if none is outstanding" and
"a new read is issued only after the previous one's completion is
observed". -/
theorem tun_write_completion_read_counterexample :
    readsIssued [TunDequeue.writeCompletion] = 2 ∧
    readsObserved [TunDequeue.writeCompletion] = 0 ∧
    1 < outstandingReads [TunDequeue.writeCompletion] := by
  decide

/-- C3 amended: registration issues exactly one standing read; every
dequeued read completion re-issues exactly one new standing read and
triggers exactly one write-queue drain; every dequeued write
completion also re-issues one read, unconditionally — without checking
whether one is outstanding — so the total reads issued along any trace
are one (registration) plus one per read completion plus one per write
completion, and drains are triggered exactly by read completions. -/
theorem tun_read_chain_amended (tr : List TunDequeue) :
    readsIssued tr = 1 + readsObserved tr + countWriteCompletions tr ∧
    drainsTriggered tr = readsObserved tr := by
  induction tr with
  | nil => decide
  | cons d rest ih =>
    obtain ⟨ih1, ih2⟩ := ih
    cases d <;>
      simp_all [readsIssued, readsObserved, drainsTriggered,
        countWriteCompletions, countEvents, readsIssuedByEvent,
        readsObservedByEvent, drainsByEvent] <;> omega

/-- Properties of the shared TUN global state after `m + 1`
registrations: the completion channel exists, the worker pool holds
exactly `numCPU * 2` threads, and every registration appended one
listener. -/
theorem tunGlobalAfter_spec (numCPU m : Nat) :
    (tunGlobalAfter numCPU (m + 1)).queueCreated = true ∧
    (tunGlobalAfter numCPU (m + 1)).workers = numCPU * 2 ∧
    (tunGlobalAfter numCPU (m + 1)).listeners = m + 1 := by
  induction m with
  | zero =>
    simp [tunGlobalAfter, win32_tun_io.add_ev, tunGlobalInit]
  | succ k ih =>
    obtain ⟨h1, h2, h3⟩ := ih
    have hstep : tunGlobalAfter numCPU (k + 2)
        = win32_tun_io.add_ev numCPU (tunGlobalAfter numCPU (k + 1)) := rfl
    rw [hstep]
    simp [win32_tun_io.add_ev, h1, h2, h3]

/-- C4: when the first endpoint registers (the event queue still
unset), `add_ev` creates the shared completion channel and starts
exactly `numCPU * 2` workers; every further registration leaves the
worker count and the channel untouched, only associating its
descriptor — so after any `n ≥ 1` registrations the channel exists,
the worker count equals twice the logical CPU count, and no
registration on an existing channel ever changes the worker count. -/
theorem add_ev_worker_pool_fixed (numCPU n : Nat) (h : 1 ≤ n) :
    (tunGlobalAfter numCPU n).queueCreated = true ∧
    (tunGlobalAfter numCPU n).workers = numCPU * 2 ∧
    (tunGlobalAfter numCPU n).listeners = n ∧
    (∀ g : TunGlobalState, g.queueCreated = true →
      (win32_tun_io.add_ev numCPU g).workers = g.workers ∧
      (win32_tun_io.add_ev numCPU g).queueCreated = true) := by
  obtain ⟨m, rfl⟩ : ∃ m, n = m + 1 := ⟨n - 1, by omega⟩
  obtain ⟨h1, h2, h3⟩ := tunGlobalAfter_spec numCPU m
  refine ⟨h1, h2, h3, fun g hg => ?_⟩
  simp [win32_tun_io.add_ev, hg]

/-- Witness for C4 at a concrete input: 4 logical CPUs, 3 sequential
registrations. -/
theorem add_ev_worker_pool_fixed_witness :
    1 ≤ 3 ∧ ((tunGlobalAfter 4 3).workers = 4 * 2 ∧
      (tunGlobalAfter 4 3).listeners = 3) :=
  ⟨by decide,
    ⟨(add_ev_worker_pool_fixed 4 3 (by decide)).2.1,
     (add_ev_worker_pool_fixed 4 3 (by decide)).2.2.1⟩⟩

/-- C5: every call to `tcp_conn::connect` makes exactly one OS connect
attempt (no automatic retry), and exactly one of three outcomes
occurs, matching the OS result: immediate success fires the connected
notification now; an in-progress report fires no callback, the
connected notification being deferred to the first `flush_write`
(whose first action is the connected notification); and a failure
fires the caller's error callback exactly once when one is
installed. -/
theorem tcp_conn_connect_trichotomy (res : OsConnectOutcome)
    (hasErrorCb : Bool) :
    (tcp_conn.connect res hasErrorCb).2 = 1 ∧
    (res = .ok →
      (tcp_conn.connect res hasErrorCb).1 = [CbEvent.connectedCb]) ∧
    (res = .inProgress →
      (tcp_conn.connect res hasErrorCb).1 = [] ∧
      (tcp_conn.flush_write false).head? = some CbEvent.connectedCb) ∧
    (∀ c, res = .errCode c → hasErrorCb = true →
      (tcp_conn.connect res hasErrorCb).1 = [CbEvent.errorCb]) := by
  cases res <;> cases hasErrorCb <;>
    simp [tcp_conn.connect, tcp_conn.flush_write]

/-- Witness for C5 at concrete inputs: a refused connect with an error
callback installed, an immediate success, and an in-progress report. -/
theorem tcp_conn_connect_trichotomy_witness :
    (tcp_conn.connect (.errCode 10061) true).1 = [CbEvent.errorCb] ∧
    (tcp_conn.connect .ok true).1 = [CbEvent.connectedCb] ∧
    (tcp_conn.connect .inProgress true).1 = [] ∧
    (tcp_conn.connect .inProgress true).2 = 1 :=
  ⟨(tcp_conn_connect_trichotomy (.errCode 10061) true).2.2.2 10061 rfl rfl,
   (tcp_conn_connect_trichotomy .ok true).2.1 rfl,
   ((tcp_conn_connect_trichotomy .inProgress true).2.2.1 rfl).1,
   (tcp_conn_connect_trichotomy .inProgress true).1⟩

/-- C6 counterexample: `tcp_connect` to a target that refuses the
connection (OS connect fails with `WSAECONNREFUSED` = 10061): the
error callback fires exactly once and the connected notification never
fires, but the `tcp_conn` endpoint stays in the loop's `handlers`
registry — `tcp_connect` registers it via `add_ev` before connecting
and no code path removes it on connect failure — refuting "the
endpoint is not left registered in the loop's handler registry
afterwards". -/
theorem tcp_connect_refused_counterexample :
    (llarp_win32_loop.tcp_connect winLoopInit true true
        (.errCode 10061) true).2.1.count CbEvent.errorCb = 1 ∧
    (llarp_win32_loop.tcp_connect winLoopInit true true
        (.errCode 10061) true).2.1.count CbEvent.connectedCb = 0 ∧
    (llarp_win32_loop.tcp_connect winLoopInit true true
        (.errCode 10061) true).1.handlers ≠ [] := by
  decide

/-- C6 amended: for every `tcp_connect` call whose target refuses the
connection (any immediate OS connect failure code), the error callback
fires exactly once and the connected notification never fires, but the
endpoint remains registered in the loop's handler registry. -/
theorem tcp_connect_refused_amended (c : Nat) :
    (llarp_win32_loop.tcp_connect winLoopInit true true
        (.errCode c) true).2.1.count CbEvent.errorCb = 1 ∧
    (llarp_win32_loop.tcp_connect winLoopInit true true
        (.errCode c) true).2.1.count CbEvent.connectedCb = 0 ∧
    (llarp_win32_loop.tcp_connect winLoopInit true true
        (.errCode c) true).1.handlers = [EndpointKind.tcpConnEndpoint] ∧
    (llarp_win32_loop.tcp_connect winLoopInit true true
        (.errCode c) true).2.2 = true := by
  simp [llarp_win32_loop.tcp_connect, llarp_win32_loop.add_ev,
    tcp_conn.connect, winLoopInit]

/-- C7: `udp_listener::sendto` fails immediately with -1 and attempts
no OS send for any destination family other than IPv4/IPv6; for IPv4
it issues the OS send with the `sockaddr_in` length and for IPv6 with
the `sockaddr_in6` length, returning the OS result. -/
theorem udp_sendto_family_validation (family : Nat) (osResult : Int) :
    (family ≠ AF_INET → family ≠ AF_INET6 →
      udp_listener.sendto family osResult = (-1, none)) ∧
    (family = AF_INET →
      udp_listener.sendto family osResult
        = (osResult, some sizeof_sockaddr_in)) ∧
    (family = AF_INET6 →
      udp_listener.sendto family osResult
        = (osResult, some sizeof_sockaddr_in6)) := by
  refine ⟨fun h1 h2 => ?_, fun h1 => ?_, fun h1 => ?_⟩
  · simp [udp_listener.sendto, h1, h2]
  · simp [udp_listener.sendto, h1]
  · have h2 : AF_INET6 ≠ AF_INET := by decide
    simp [udp_listener.sendto, h1, h2]

/-- Witness for C7 at concrete inputs: the unix-domain family
`AF_UNIX` = 1 is rejected with no OS send; IPv4 and IPv6 sends go out
with the matching socket-length. -/
theorem udp_sendto_family_validation_witness :
    udp_listener.sendto 1 40 = (-1, none) ∧
    udp_listener.sendto AF_INET 40 = (40, some sizeof_sockaddr_in) ∧
    udp_listener.sendto AF_INET6 40 = (40, some sizeof_sockaddr_in6) :=
  ⟨(udp_sendto_family_validation 1 40).1 (by decide) (by decide),
   (udp_sendto_family_validation AF_INET 40).2.1 rfl,
   (udp_sendto_family_validation AF_INET6 40).2.2 rfl⟩

/-- C8 counterexample: pushing a payload one byte larger than the
maximum entry size into a fresh pacing queue does not fail or drop the
push — the `WriteBuffer` constructor takes its `else` branch, setting
`bufsz = 0` and copying nothing, and the resulting empty entry is
still emplaced (the queue grows by one) — and the immediate drain then
emits a zero-length OS write for that entry, refuting "no entry ... is
enqueued and no OS write is later emitted for it". -/
theorem queue_write_oversize_counterexample :
    (win32_tun_io.queue_write 0 tunWriteInit
        (List.replicate (EV_WRITE_BUF_SZ + 1) 0)).enqueuedDelta = 1 ∧
    (win32_tun_io.queue_write 0 tunWriteInit
        (List.replicate (EV_WRITE_BUF_SZ + 1) 0)).writesEmitted = [0] := by
  have h : EV_WRITE_BUF_SZ
      < (List.replicate (EV_WRITE_BUF_SZ + 1) (0 : Nat)).length := by simp
  constructor <;>
    simp [win32_tun_io.queue_write, win32_tun_io.flush_write, codelEmplace,
      codelProcess, codelDecide, mkWriteBuffer_oversize _ h, tunWriteInit,
      codelInit, codelCapacity, codelTargetMs]

/-- C8 amended: a push emplaces an entry stamped with the current
time; when the payload fits the maximum entry size the entry carries a
copy of it, but an oversized payload is not dropped — the entry is
still enqueued with byte count 0 carrying none of the payload, and the
drain later emits a zero-length OS write for it; `queue_write` always
triggers an immediate drain after the push (the queue is empty
afterwards) and returns true exactly when the queue exists. -/
theorem queue_write_amended (now : Nat) (st : TunWriteState)
    (ptr : List Nat) :
    ((win32_tun_io.queue_write now st ptr).ok = st.hasQueue) ∧
    (st.hasQueue = true →
      (win32_tun_io.queue_write now st ptr).stAfter.queue = []) ∧
    (st.queue.length < codelCapacity →
      codelEmplace now st.queue ptr
        = st.queue ++ [{ mkWriteBuffer ptr with timestamp := now }]) ∧
    (ptr.length ≤ EV_WRITE_BUF_SZ →
      (mkWriteBuffer ptr).payload = ptr
        ∧ (mkWriteBuffer ptr).bufsz = ptr.length) ∧
    (EV_WRITE_BUF_SZ < ptr.length →
      (mkWriteBuffer ptr).bufsz = 0 ∧ (mkWriteBuffer ptr).payload = []) ∧
    (st.hasQueue = true → st.queue = [] → EV_WRITE_BUF_SZ < ptr.length →
      (win32_tun_io.queue_write now st ptr).enqueuedDelta = 1 ∧
      (win32_tun_io.queue_write now st ptr).writesEmitted = [0]) := by
  refine ⟨?_, ?_, ?_, ?_, ?_, ?_⟩
  · by_cases hq : st.hasQueue <;>
      simp [win32_tun_io.queue_write, win32_tun_io.flush_write, hq]
  · intro hq
    simp [win32_tun_io.queue_write, win32_tun_io.flush_write, hq]
  · intro hlen
    simp [codelEmplace, hlen]
  · intro hfit
    simp [mkWriteBuffer, hfit]
  · intro hbig
    simp [mkWriteBuffer_oversize _ hbig]
  · intro hq hempty hbig
    constructor <;>
      simp [win32_tun_io.queue_write, win32_tun_io.flush_write, codelEmplace,
        codelProcess, codelDecide, mkWriteBuffer_oversize _ hbig, hq, hempty,
        codelCapacity, codelTargetMs]

/-- Witness for C8 amended at concrete inputs: a fitting two-byte push
is copied and stamped with time 3, and an oversized push on a fresh
queue enqueues one empty entry and emits one zero-length OS write. -/
theorem queue_write_amended_witness :
    ((win32_tun_io.queue_write 3 tunWriteInit [5, 6]).ok = true) ∧
    ((win32_tun_io.queue_write 3 tunWriteInit [5, 6]).stAfter.queue = []) ∧
    (codelEmplace 3 tunWriteInit.queue [5, 6]
      = [{ timestamp := 3, bufsz := 2, payload := [5, 6] }]) ∧
    ((win32_tun_io.queue_write 0 tunWriteInit
        (List.replicate (EV_WRITE_BUF_SZ + 1) 0)).writesEmitted = [0]) := by
  have hbig : EV_WRITE_BUF_SZ
      < (List.replicate (EV_WRITE_BUF_SZ + 1) (0 : Nat)).length := by simp
  refine ⟨(queue_write_amended 3 tunWriteInit [5, 6]).1, ?_, ?_, ?_⟩
  · exact (queue_write_amended 3 tunWriteInit [5, 6]).2.1 rfl
  · have := (queue_write_amended 3 tunWriteInit [5, 6]).2.2.1 (by decide)
    simpa [tunWriteInit, mkWriteBuffer] using this
  · exact ((queue_write_amended 0 tunWriteInit
      (List.replicate (EV_WRITE_BUF_SZ + 1) 0)).2.2.2.2.2 rfl rfl hbig).2

/-- C9: `win32_tun_io::setup` succeeds exactly when starting the
device, assigning the address/netmask, bringing the device up all
succeed and the device descriptor is valid; the steps run in that
fixed order, the first failing step aborts setup immediately with all
later steps skipped, and no rollback of already-performed steps is
ever attempted. -/
theorem setup_fail_fast (e : TunSetupEnv) :
    ((win32_tun_io.setup e).1
      = (e.startOk && e.setIpOk && e.upOk && e.fdValid)) ∧
    (SetupStep.rollback ∉ (win32_tun_io.setup e).2) ∧
    (e.startOk = false →
      win32_tun_io.setup e = (false, [.start])) ∧
    (e.startOk = true → e.setIpOk = false →
      win32_tun_io.setup e = (false, [.start, .setIp])) ∧
    (e.startOk = true → e.setIpOk = true → e.upOk = false →
      win32_tun_io.setup e = (false, [.start, .setIp, .up])) ∧
    (e.startOk = true → e.setIpOk = true → e.upOk = true →
      e.fdValid = false →
      win32_tun_io.setup e = (false, [.start, .setIp, .up])) ∧
    ((win32_tun_io.setup e).1 = true →
      win32_tun_io.setup e = (true, [.start, .setIp, .up])) := by
  rcases e with ⟨s, i, u, f⟩
  cases s <;> cases i <;> cases u <;> cases f <;>
    simp [win32_tun_io.setup]

/-- Witness for C9 at concrete environments: a failure of the
address-assignment step stops after `[start, setIp]`, and a fully
successful environment returns success with all three steps
performed. -/
theorem setup_fail_fast_witness :
    win32_tun_io.setup ⟨true, false, true, true⟩
      = (false, [.start, .setIp]) ∧
    win32_tun_io.setup ⟨true, true, true, true⟩
      = (true, [.start, .setIp, .up]) :=
  ⟨(setup_fail_fast ⟨true, false, true, true⟩).2.2.2.1 rfl rfl,
   (setup_fail_fast ⟨true, true, true, true⟩).2.2.2.2.2.2 rfl⟩

/-- Registering a non-TUN endpoint through `llarp_win32_loop::add_ev`
never puts a TUN endpoint into the handler registry. -/
theorem loop_add_ev_no_tun (st : WinLoopState) (k : EndpointKind)
    (ctlOk : Bool)
    (h : EndpointKind.tunEndpoint ∉ st.handlers)
    (hk : k ≠ EndpointKind.tunEndpoint) :
    EndpointKind.tunEndpoint
      ∉ (llarp_win32_loop.add_ev st k ctlOk).1.handlers := by
  unfold llarp_win32_loop.add_ev
  by_cases hc : ctlOk
  · simp only [hc, if_true]
    intro hmem
    rcases List.mem_append.mp hmem with hmem | hmem
    · exact h hmem
    · exact hk (List.mem_singleton.mp hmem).symm
  · simp only [hc, if_false]
    exact h

/-- No sequence of factory calls can place a TUN endpoint into the
handler registry. -/
theorem applyFactory_no_tun (calls : List FactoryCall) (st : WinLoopState)
    (h : EndpointKind.tunEndpoint ∉ st.handlers) :
    EndpointKind.tunEndpoint
      ∉ (calls.foldl applyFactory st).handlers := by
  induction calls generalizing st with
  | nil => exact h
  | cons c rest ih =>
    refine ih _ ?_
    cases c with
    | callTcpConnect socketOk ctlOk =>
      by_cases hs : socketOk <;>
        simp only [applyFactory, hs, if_true, if_false]
      · exact loop_add_ev_no_tun st _ ctlOk h (by decide)
      · exact h
    | callBindTcp ok ctlOk =>
      by_cases hs : ok <;>
        simp only [applyFactory, hs, if_true, if_false]
      · exact loop_add_ev_no_tun st _ ctlOk h (by decide)
      · exact h
    | callUdpListen ok ctlOk =>
      by_cases hs : ok <;>
        simp only [applyFactory, hs, if_true, if_false]
      · exact loop_add_ev_no_tun st _ ctlOk h (by decide)
      · exact h
    | callCreateTun => exact h

/-- C10: on the readiness-polling backend, `create_tun` returns null
for every input, so no virtual-interface endpoint can be created by
this loop, and no sequence of factory calls (TCP connect, TCP bind,
UDP listen, create-tun) ever registers a TUN endpoint: only TCP and
UDP endpoints are reachable through the loop's factories. -/
theorem create_tun_none_no_tun_endpoints :
    (∀ cfg : Nat, llarp_win32_loop.create_tun cfg = none) ∧
    (∀ calls : List FactoryCall,
      EndpointKind.tunEndpoint ∉ (registryAfter calls).handlers) := by
  constructor
  · intro cfg
    rfl
  · intro calls
    exact applyFactory_no_tun calls winLoopInit (by simp [winLoopInit])
